import Mathlib

/-!
Shallow embedding of the Widevine CDM device engine
(`vinetrimmer/utils/widevine/device.py`) and proofs of the specified
properties of `LocalDevice`.

Modeling conventions:
* Byte strings are `List Nat`; in well-formed data every cell is below 256.
* External library primitives (pycryptodome AES/CMAC/HMAC/RSA, protobuf
  parse/serialize of the generated message classes, base64) are collected in
  an `Oracle` of abstract functions; the engine's own control flow and data
  flow are translated concretely.
* Python's in-place session mutation plus exceptions becomes explicit state
  passing: each operation returns `Except VtError A × WvSession`, where the
  returned session is the state at the point the exception was raised.
* Randomness (`get_random_bytes`, `random.randrange`) and the clock become
  explicit `Entropy`/`now` inputs; `random.randrange(lo, hi)` is modeled by
  its documented contract as `lo + seed % (hi - lo)`.
-/

/-- Byte strings, modeled as lists of naturals. -/
abbrev Bytes : Type := List Nat

/-- UTF-8-ish encoding of an ASCII string as bytes (used for the KDF context
labels and for key-type-name key ids). -/
def strBytes (s : String) : Bytes := s.data.map Char.toNat

/-- Big-endian 16-bit length field as written by construct's `Int16ub`. -/
def u16enc (n : Nat) : Bytes := [n / 256, n % 256]

/-- Model encoding of an integer protobuf field payload (4 cells, big-endian
base 256). -/
def natBytes (n : Nat) : Bytes :=
  [n / 16777216 % 256, n / 65536 % 256, n / 256 % 256, n % 256]

/-- PKCS#7 padding to 16-byte blocks (`Cryptodome.Util.Padding.pad`). -/
def pad16 (b : Bytes) : Bytes :=
  b ++ List.replicate (16 - b.length % 16) (16 - b.length % 16)

/-- PKCS#7 unpadding for 16-byte blocks (`Cryptodome.Util.Padding.unpad`);
`none` models the `ValueError` raised on incorrect padding. -/
def unpad16 (b : Bytes) : Option Bytes :=
  if b.length % 16 ≠ 0 ∨ b.length = 0 then none
  else
    match b.getLast? with
    | none => none
    | some n =>
      if n = 0 ∨ 16 < n ∨ b.length < n then none
      else if (b.drop (b.length - n)).all (fun x => x = n) then
        some (b.take (b.length - n))
      else none

/-- The predicate "needle occurs as a contiguous byte substring of hay". -/
def ContainsBytes (needle hay : Bytes) : Prop :=
  ∃ u v, hay = u ++ needle ++ v

/-- Device types of `BaseDevice.Types` (CHROME = 1, ANDROID = 2). -/
inductive DeviceType where
  | CHROME
  | ANDROID
deriving DecidableEq

/-- Numeric value of a device type, as stored in the binary device format. -/
def deviceTypeVal : DeviceType → Nat
  | .CHROME => 1
  | .ANDROID => 2

/-- Device flags; the only flag the engine reads is `send_key_control_nonce`. -/
structure DeviceFlags where
  sendKeyControlNonce : Bool
deriving DecidableEq

/-- Verified Media Path file-hash blob (`widevine.FileHashes`), kept opaque. -/
structure FileHashes where
  blob : Bytes
deriving DecidableEq

/-- Client identification message (`widevine.ClientIdentification`): an opaque
body plus the `_FileHashes` slot the VMP merge writes and the system id read
out as a shorthand. -/
structure ClientIdentification where
  blob : Bytes
  fileHashes : Option FileHashes
  tokenSystemId : Nat
deriving DecidableEq

/-- Inner device certificate (`widevine.DeviceCertificate`): the fields the
engine reads for privacy mode. -/
structure DeviceCertificate where
  serviceId : Bytes
  serialNumber : Bytes
  publicKey : Bytes
deriving DecidableEq

/-- Signed device certificate (`widevine.SignedDeviceCertificate`). -/
structure SignedDeviceCertificate where
  deviceCertificate : DeviceCertificate
  signature : Bytes
deriving DecidableEq

/-- Outer signed wrapper of a service certificate (`widevine.SignedMessage`);
only its `Msg` payload is read. -/
structure SignedMessage where
  msg : Bytes
deriving DecidableEq

/-- Encrypted client identification
(`widevine.EncryptedClientIdentification`). -/
structure EncryptedClientIdentification where
  serviceId : Bytes
  serviceCertificateSerialNumber : Bytes
  encryptedClientId : Bytes
  encryptedClientIdIv : Bytes
  encryptedPrivacyKey : Bytes
deriving DecidableEq

/-- License types set on the content id (OFFLINE for persistent licenses). -/
inductive LicenseType where
  | DEFAULT
  | OFFLINE
deriving DecidableEq

/-- Numeric protobuf enum value of a license type. -/
def licenseTypeVal : LicenseType → Nat
  | .DEFAULT => 1
  | .OFFLINE => 2

/-- License request message (`widevine.LicenseRequest` /
`LicenseRequestRaw.Msg`): the fields `get_license_challenge` populates. -/
structure LicenseRequest where
  pssh : Bytes
  licenseType : LicenseType
  requestId : Bytes
  requestTime : Nat
  keyControlNonce : Option Nat
  clientId : Option ClientIdentification
  encryptedClientId : Option EncryptedClientIdentification
deriving DecidableEq

/-- Signed license request envelope (`widevine.SignedLicenseRequest`, or the
`Raw` variant when `session.raw` is set). -/
structure SignedLicenseRequest where
  raw : Bool
  msg : LicenseRequest
  signature : Bytes
deriving DecidableEq

/-- Key container types (`widevine.License.KeyContainer.KeyType`). -/
inductive KeyType where
  | SIGNING
  | CONTENT
  | KEY_CONTROL
  | OPERATOR_SESSION
deriving DecidableEq

/-- Name of a key type, as returned by `KeyType.Name`. -/
def keyTypeName : KeyType → String
  | .SIGNING => "SIGNING"
  | .CONTENT => "CONTENT"
  | .KEY_CONTROL => "KEY_CONTROL"
  | .OPERATOR_SESSION => "OPERATOR_SESSION"

/-- Modelled from the spec: the boolean capability fields of
`widevine.License.KeyContainer._OperatorSessionKeyPermissions` (the proto
definition is not part of the sources; the spec only states that the container
carries boolean permission fields recorded by name when true). -/
structure OperatorSessionKeyPermissions where
  allowEncrypt : Bool
  allowDecrypt : Bool
  allowSign : Bool
  allowSignatureVerify : Bool
deriving DecidableEq

/-- Names of the permission fields set true, in field order, mirroring the
`ListFields` loop that appends `descriptor.name` when `value == 1`. -/
def permissionList (p : OperatorSessionKeyPermissions) : List String :=
  (if p.allowEncrypt then ["AllowEncrypt"] else [])
    ++ (if p.allowDecrypt then ["AllowDecrypt"] else [])
    ++ (if p.allowSign then ["AllowSign"] else [])
    ++ (if p.allowSignatureVerify then ["AllowSignatureVerify"] else [])

/-- One key container of a license (`widevine.License.KeyContainer`). -/
structure KeyContainer where
  id : Bytes
  type : KeyType
  iv : Bytes
  key : Bytes
  operatorSessionKeyPermissions : OperatorSessionKeyPermissions
deriving DecidableEq

/-- License message (`widevine.License`): the key containers it carries. -/
structure License where
  key : List KeyContainer
deriving DecidableEq

/-- Signed license response envelope (`widevine.SignedLicense`). -/
structure SignedLicense where
  msg : License
  sessionKey : Bytes
  signature : Bytes
deriving DecidableEq

/-- Modelled from the spec: the extracted-key record of
`vinetrimmer.utils.widevine.key.Key` (that module is not part of the sources);
per the spec a key is `id`, `type`, `material` and a permission list. -/
structure Key where
  kid : Bytes
  keyType : String
  key : Bytes
  permissions : List String
deriving DecidableEq

/-- The per-session derived-key map `session.derived_keys`. -/
structure DerivedKeys where
  enc : Option Bytes
  auth_1 : Option Bytes
  auth_2 : Option Bytes
deriving DecidableEq

/-- Mutable per-content license session state operated on by the device. -/
structure WvSession where
  sessionId : Bytes
  cencHeader : Bytes
  raw : Bool
  offline : Bool
  privacyMode : Bool
  signedDeviceCertificate : Option SignedDeviceCertificate
  licenseRequest : Option SignedLicenseRequest
  signedLicense : Option SignedLicense
  sessionKey : Option Bytes
  derivedKeys : DerivedKeys
  keys : List Key
deriving DecidableEq

/-- Error taxonomy of the engine; each constructor corresponds to one
`raise ValueError` site of `device.py`, named as in the specification, except
`KeylessDump`, which models the exception construct's `Bytes.build` raises
when `dumpb` passes it the `None` private key of a keyless device. -/
inductive VtError where
  | NoPendingRequest
  | MalformedResponse
  | SignatureMismatch
  | PaddingError
  | MissingIdentity
  | MissingSigningCapability
  | MalformedCertificate
  | MissingCertificate
  | MalformedDeviceBlob
  | MalformedKey
  | MalformedClientId
  | MalformedVmp
  | KeylessDump
deriving DecidableEq

/-- External library primitives used by the engine (pycryptodome, protobuf,
base64, cdmapi), abstracted as pure functions. -/
structure Oracle where
  cmacAES : Bytes → Bytes → Bytes
  hmacSHA256 : Bytes → Bytes → Bytes
  aesCbcEncrypt : Bytes → Bytes → Bytes → Bytes
  aesCbcDecrypt : Bytes → Bytes → Bytes → Bytes
  oaepEncrypt : Bytes → Bytes → Bytes
  oaepDecrypt : Option Bytes → Bytes → Bytes
  pssSign : Option Bytes → Bytes → Bytes
  cdmapiSign : Bytes → Bytes
  cdmapiDecrypt : Bytes → Bytes
  b64decode : String → Bytes
  rsaImport : Bytes → Option Bytes
  rsaExportDER : Bytes → Bytes
  parseClientId : Bytes → Option ClientIdentification
  serializeClientId : ClientIdentification → Bytes
  parseFileHashes : Bytes → Option FileHashes
  serializeFileHashes : FileHashes → Bytes
  parseSignedMessage : Bytes → Option SignedMessage
  parseSignedDeviceCertificate : Bytes → Option SignedDeviceCertificate
  parseSignedLicense : Bytes → Option SignedLicense
  serializeLicenseMsg : License → Bytes

/-- The in-memory `LocalDevice` identity. -/
structure LocalDevice where
  type : DeviceType
  securityLevel : Nat
  flags : Option DeviceFlags
  privateKey : Option Bytes
  clientId : Option ClientIdentification
  vmp : Option FileHashes
  systemId : Option Nat
deriving DecidableEq

/-- Untrusted input that is accepted either as raw bytes or as a
base64-encoded string. -/
inductive ByteInput where
  | bytes (b : Bytes)
  | str (t : String)

/-- Normalization of a `ByteInput` to bytes, as performed by the
`isinstance(x, str)` checks at the top of the operations. -/
def inputBytes (O : Oracle) : ByteInput → Bytes
  | .bytes b => b
  | .str t => O.b64decode t

/-- Whether the `send_key_control_nonce` flag is set
(`self.flags and self.flags.get("send_key_control_nonce")`). -/
def flagSet (d : LocalDevice) : Bool :=
  match d.flags with
  | some f => f.sendKeyControlNonce
  | none => false

/-- Model of Python `random.randrange(lo, hi)` by its documented contract:
a value in `[lo, hi)`, here determined by an explicit seed. -/
def randrange (seed lo hi : Nat) : Nat := lo + seed % (hi - lo)

/-- Explicit randomness consumed by `get_license_challenge`: the nonce draw
and the fresh AES key and IV of privacy mode. -/
structure Entropy where
  nonceSeed : Nat
  cidKey : Bytes
  cidIv : Bytes

/-- Model protobuf field encoding: tag cell, length cell, then the payload
verbatim. -/
def encField (tag : Nat) (payload : Bytes) : Bytes := tag :: payload.length :: payload

/-- Model protobuf optional-field encoding: absent fields contribute no
bytes. -/
def encOptField (tag : Nat) : Option Bytes → Bytes
  | none => []
  | some p => encField tag p

/-- Serialization of the content id submessage of a license request. -/
def serializeContentId (m : LicenseRequest) : Bytes :=
  encField 1 m.pssh ++ encField 2 [licenseTypeVal m.licenseType]
    ++ encField 3 m.requestId

/-- Serialization of an `EncryptedClientIdentification`; the service id,
serial number, ciphertext, IV and wrapped key are embedded verbatim. -/
def serializeEncClientId (e : EncryptedClientIdentification) : Bytes :=
  encField 1 e.serviceId ++ encField 2 e.serviceCertificateSerialNumber
    ++ encField 3 e.encryptedClientId ++ encField 4 e.encryptedClientIdIv
    ++ encField 5 e.encryptedPrivacyKey

/-- Serialization of a license request message
(`license_request.Msg.SerializeToString()`). -/
def serializeLicenseRequestMsg (O : Oracle) (m : LicenseRequest) : Bytes :=
  encOptField 1 (m.clientId.map O.serializeClientId)
    ++ encField 2 (serializeContentId m)
    ++ encField 3 (natBytes m.requestTime)
    ++ encOptField 4 (m.keyControlNonce.map natBytes)
    ++ encOptField 5 (m.encryptedClientId.map serializeEncClientId)

/-- Serialization of the signed license request envelope
(`session.license_request.SerializeToString()`). -/
def serializeSignedLicenseRequest (O : Oracle) (r : SignedLicenseRequest) : Bytes :=
  encField 1 [if r.raw then 1 else 0]
    ++ encField 2 (serializeLicenseRequestMsg O r.msg)
    ++ encField 3 r.signature

/-- The `get_auth_keys(*i, k, b)` helper of `parse_license`: a single index
yields one CMAC block over the index byte followed by the context; several
indices yield the concatenation of their blocks. -/
def get_auth_keys (O : Oracle) (k b : Bytes) (i : List Nat) : Bytes :=
  if i.length > 1 then (i.map (fun x => O.cmacAES k (x :: b))).flatten
  else
    match i with
    | [x] => O.cmacAES k (x :: b)
    | _ => []

/-- The ENCRYPTION KDF context `b"ENCRYPTION\000%b\0\0\0\x80"` built from the
serialized inner message of the pending request. -/
def encKeyBase (msgBytes : Bytes) : Bytes :=
  strBytes "ENCRYPTION" ++ [0] ++ msgBytes ++ [0, 0, 0, 128]

/-- The AUTHENTICATION KDF context `b"AUTHENTICATION\0%b\0\0\2\0"` built from
the serialized inner message of the pending request. -/
def authKeyBase (msgBytes : Bytes) : Bytes :=
  strBytes "AUTHENTICATION" ++ [0] ++ msgBytes ++ [0, 0, 2, 0]

/-- Session-key recovery: the cdmapi path when supported and no local private
key is present, otherwise RSA-OAEP decryption with the device key. -/
def recoverSessionKey (O : Oracle) (cdmapiSupported : Bool) (d : LocalDevice)
    (sl : SignedLicense) : Bytes :=
  if cdmapiSupported && d.privateKey.isNone then O.cdmapiDecrypt sl.sessionKey
  else O.oaepDecrypt d.privateKey sl.sessionKey

/-- The three derived keys exactly as `parse_license` computes them. -/
def deriveKeysCode (O : Oracle) (sessionKey msgBytes : Bytes) : DerivedKeys where
  enc := some (get_auth_keys O sessionKey (encKeyBase msgBytes) [1])
  auth_1 := some (get_auth_keys O sessionKey (authKeyBase msgBytes) [1, 2])
  auth_2 := some (get_auth_keys O sessionKey (authKeyBase msgBytes) [3, 4])

/-- The `Key` record appended for one container, given its decrypted and
unpadded material. -/
def containerKey (c : KeyContainer) (material : Bytes) : Key where
  kid := if c.id ≠ [] then c.id else strBytes (keyTypeName c.type)
  keyType := keyTypeName c.type
  key := material
  permissions :=
    if keyTypeName c.type = "OPERATOR_SESSION" then
      permissionList c.operatorSessionKeyPermissions
    else []

/-- The key-extraction loop of `parse_license`: containers are processed in
order, each appending one `Key`; an unpadding failure aborts the loop with the
keys appended so far kept (the exception propagates after the mutation). -/
def extractKeys (O : Oracle) (encKey : Bytes) :
    List KeyContainer → List Key × Option VtError
  | [] => ([], none)
  | c :: rest =>
    match unpad16 (O.aesCbcDecrypt encKey c.iv c.key) with
    | none => ([], some .PaddingError)
    | some material =>
      (containerKey c material :: (extractKeys O encKey rest).1,
        (extractKeys O encKey rest).2)

/-- Decidable equality of results, for evaluating the theorems on closed
inputs. -/
instance {ε α : Type} [DecidableEq ε] [DecidableEq α] : DecidableEq (Except ε α) := fun a b =>
  match a, b with
  | .ok x, .ok y =>
    if h : x = y then .isTrue (by rw [h]) else .isFalse (by intro he; cases he; exact h rfl)
  | .ok _, .error _ => .isFalse (by intro he; cases he)
  | .error _, .ok _ => .isFalse (by intro he; cases he)
  | .error x, .error y =>
    if h : x = y then .isTrue (by rw [h]) else .isFalse (by intro he; cases he; exact h rfl)

/-- `LocalDevice.parse_license`, with the session threaded explicitly; the
returned session is the state at the point of a raised error. -/
def parse_license (O : Oracle) (cdmapiSupported : Bool) (d : LocalDevice)
    (s : WvSession) (license_res : ByteInput) : Except VtError Bool × WvSession :=
  match s.licenseRequest with
  | none => (.error .NoPendingRequest, s)
  | some lreq =>
    match O.parseSignedLicense (inputBytes O license_res) with
    | none => (.error .MalformedResponse, s)
    | some sl =>
      let msgBytes := serializeLicenseRequestMsg O lreq.msg
      let sessionKey := recoverSessionKey O cdmapiSupported d sl
      let dk := deriveKeysCode O sessionKey msgBytes
      let s2 := { s with
        signedLicense := some sl
        sessionKey := some sessionKey
        derivedKeys := dk }
      if O.hmacSHA256 (get_auth_keys O sessionKey (authKeyBase msgBytes) [1, 2])
          (O.serializeLicenseMsg sl.msg) ≠ sl.signature then
        (.error .SignatureMismatch, s2)
      else
        let (newKeys, err) :=
          extractKeys O (get_auth_keys O sessionKey (encKeyBase msgBytes) [1]) sl.msg.key
        let s3 := { s2 with keys := s2.keys ++ newKeys }
        match err with
        | some e => (.error e, s3)
        | none => (.ok true, s3)

/-- `LocalDevice.set_service_certificate`: decode, parse the signed wrapper
and the inner certificate, then store it and flip privacy mode. -/
def set_service_certificate (O : Oracle) (s : WvSession) (certificate : ByteInput) :
    Except VtError Bool × WvSession :=
  let cert := inputBytes O certificate
  match O.parseSignedMessage cert with
  | none => (.error .MalformedCertificate, s)
  | some sm =>
    match O.parseSignedDeviceCertificate sm.msg with
    | none => (.error .MalformedCertificate, s)
    | some sdc =>
      (.ok true, { s with signedDeviceCertificate := some sdc, privacyMode := true })

/-- The request-message skeleton built before the privacy branch: content id,
license type, session id, request time, and the optional key-control nonce. -/
def baseMsg (d : LocalDevice) (rnd : Entropy) (now : Nat) (s : WvSession) : LicenseRequest where
  pssh := s.cencHeader
  licenseType := if s.offline then .OFFLINE else .DEFAULT
  requestId := s.sessionId
  requestTime := now
  keyControlNonce :=
    if flagSet d then some (randrange rnd.nonceSeed 1 (2 ^ 31)) else none
  clientId := none
  encryptedClientId := none

/-- The encrypted client identification built in privacy mode: fresh AES key
and IV, AES-CBC over the PKCS#7-padded serialized client id, the AES key
wrapped with RSA-OAEP under the certificate's public key. -/
def privacyEncCid (O : Oracle) (cid : ClientIdentification) (rnd : Entropy)
    (sdc : SignedDeviceCertificate) : EncryptedClientIdentification where
  serviceId := sdc.deviceCertificate.serviceId
  serviceCertificateSerialNumber := sdc.deviceCertificate.serialNumber
  encryptedClientId := O.aesCbcEncrypt rnd.cidKey rnd.cidIv (pad16 (O.serializeClientId cid))
  encryptedClientIdIv := rnd.cidIv
  encryptedPrivacyKey := O.oaepEncrypt sdc.deviceCertificate.publicKey rnd.cidKey

/-- Request signing: the cdmapi path when supported and no local key is
present, RSA-PSS with the device key otherwise. -/
def signMsg (O : Oracle) (cdmapiSupported : Bool) (d : LocalDevice) (msgBytes : Bytes) : Bytes :=
  if cdmapiSupported && d.privateKey.isNone then O.cdmapiSign msgBytes
  else O.pssSign d.privateKey msgBytes

/-- The fully assembled signed request stored on the session by a challenge
build. -/
def challengeSLR (O : Oracle) (cdmapiSupported : Bool) (d : LocalDevice)
    (s : WvSession) (msg : LicenseRequest) : SignedLicenseRequest where
  raw := s.raw
  msg := msg
  signature := signMsg O cdmapiSupported d (serializeLicenseRequestMsg O msg)

/-- Challenge finalization shared by both privacy branches: serialize the
message, sign it, store the signed request on the session and return its
serialization. -/
def finishChallenge (O : Oracle) (cdmapiSupported : Bool) (d : LocalDevice)
    (s : WvSession) (msg : LicenseRequest) : Except VtError Bytes × WvSession :=
  (.ok (serializeSignedLicenseRequest O (challengeSLR O cdmapiSupported d s msg)),
    { s with licenseRequest := some (challengeSLR O cdmapiSupported d s msg) })

/-- `LocalDevice.get_license_challenge`: guard on identity and signing
capability, build the request (with a key-control nonce only when the flag is
set), embed either the plaintext or the encrypted client identification, sign
and store. -/
def get_license_challenge (O : Oracle) (cdmapiSupported : Bool) (d : LocalDevice)
    (rnd : Entropy) (now : Nat) (s : WvSession) : Except VtError Bytes × WvSession :=
  match d.clientId with
  | none => (.error .MissingIdentity, s)
  | some cid =>
    if d.privateKey.isNone && !cdmapiSupported then
      (.error .MissingSigningCapability, s)
    else
      if s.privacyMode then
        match s.signedDeviceCertificate with
        | none => (.error .MissingCertificate, s)
        | some sdc =>
          finishChallenge O cdmapiSupported d s
            { baseMsg d rnd now s with
                encryptedClientId := some (privacyEncCid O cid rnd sdc) }
      else
        finishChallenge O cdmapiSupported d s
          { baseMsg d rnd now s with clientId := some cid }

/-- The parsed fields of the binary device format (`WidevineDeviceStruct`);
`flagsRaw` keeps the raw flags byte for byte-level reasoning about the
format. -/
structure WVDFields where
  version : Nat
  type : DeviceType
  securityLevel : Nat
  flagsRaw : Nat
  flags : Option DeviceFlags
  privateKey : Bytes
  clientId : Bytes
  vmpLen : Option Nat
  vmp : Option Bytes
deriving DecidableEq

/-- Reader for construct's `Int16ub`: two big-endian bytes, failing when the
stream is exhausted. -/
def readU16 : Bytes → Option (Nat × Bytes)
  | a :: c :: r => some (a * 256 + c, r)
  | _ => none

/-- Reader for construct's `Bytes(n)`: `n` bytes, failing when fewer remain. -/
def readBytes (n : Nat) (b : Bytes) : Option (Bytes × Bytes) :=
  if b.length < n then none else some (b.take n, b.drop n)

/-- The optional trailing VMP section: `Optional(Int16ub)` then
`If(vmp_len, Optional(Bytes(vmp_len)))` — the length is absent at end of
stream, and the payload is read only when the length is nonzero and enough
bytes remain. -/
def parseVmp (r : Bytes) : Option Nat × Option Bytes :=
  match r with
  | p :: q :: r4 =>
    let vl := p * 256 + q
    if vl = 0 then (some 0, none)
    else if r4.length < vl then (some vl, none)
    else (some vl, some (r4.take vl))
  | _ => (none, none)

/-- Decoding of the `type` enum: construct's `Enum` accepts only the mapped
values 1 (CHROME) and 2 (ANDROID). -/
def readDeviceType (t : Nat) : Option DeviceType :=
  if t = 1 then some .CHROME else if t = 2 then some .ANDROID else none

/-- Parser of the binary device format: the 3-byte magic, version, type enum,
security level, one flags byte whose lowest bit is `send_key_control_nonce`,
two length-prefixed byte fields, and the optional trailing VMP section.
Trailing bytes beyond the struct are ignored, as construct's `parse` does. -/
def parseWVD (b : Bytes) : Option WVDFields :=
  match b with
  | 87 :: 86 :: 68 :: v :: t :: sl :: fl :: r0 =>
    match readDeviceType t with
    | none => none
    | some ty =>
      match readU16 r0 with
      | none => none
      | some (pkLen, r1) =>
        match readBytes pkLen r1 with
        | none => none
        | some (pk, r1r) =>
          match readU16 r1r with
          | none => none
          | some (cidLen, r2) =>
            match readBytes cidLen r2 with
            | none => none
            | some (cid, r3) =>
              some {
                version := v
                type := ty
                securityLevel := sl
                flagsRaw := fl
                flags := some { sendKeyControlNonce := fl % 2 = 1 }
                privateKey := pk
                clientId := cid
                vmpLen := (parseVmp r3).1
                vmp := (parseVmp r3).2 }
  | _ => none

/-- The `LocalDevice` constructor applied to parsed struct fields: import the
private key when nonempty, parse the client id, and when a VMP blob is
present parse it and merge it into the client identification. -/
def mkLocalDevice (O : Oracle) (w : WVDFields) : Except VtError LocalDevice :=
  let pkStep : Except VtError (Option Bytes) :=
    if w.privateKey ≠ [] then
      match O.rsaImport w.privateKey with
      | none => .error .MalformedKey
      | some k => .ok (some k)
    else .ok none
  match pkStep with
  | .error e => .error e
  | .ok pk =>
    match O.parseClientId w.clientId with
    | none => .error .MalformedClientId
    | some cid0 =>
      let vmpStep : Except VtError (Option FileHashes) :=
        match w.vmp with
        | some v =>
          if v ≠ [] then
            match O.parseFileHashes v with
            | none => .error .MalformedVmp
            | some fh => .ok (some fh)
          else .ok none
        | none => .ok none
      match vmpStep with
      | .error e => .error e
      | .ok fh =>
        let cid : ClientIdentification :=
          match fh with
          | some f => { cid0 with fileHashes := some f }
          | none => cid0
        .ok {
          type := w.type
          securityLevel := w.securityLevel
          flags := w.flags
          privateKey := pk
          clientId := some cid
          vmp := fh
          systemId := some cid.tokenSystemId }

/-- `LocalDevice.load` on an in-memory byte blob. -/
def load (O : Oracle) (b : Bytes) : Except VtError LocalDevice :=
  match parseWVD b with
  | none => .error .MalformedDeviceBlob
  | some w => mkLocalDevice O w

/-- The flags byte written by `dumpb` via the padded optional bit struct:
bit 0 is the nonce flag, the reserved bits are zero; an absent flags record
pads to a zero byte. -/
def flagsByte : Option DeviceFlags → Nat
  | some f => if f.sendKeyControlNonce then 1 else 0
  | none => 0

/-- Re-serialization of the client-identification slot. -/
def serializeCidOpt (O : Oracle) : Option ClientIdentification → Bytes
  | some c => O.serializeClientId c
  | none => []

/-- Re-serialization of the VMP slot (an unset VMP serializes to zero
bytes, exactly as the empty `FileHashes` message does). -/
def serializeVmpOpt (O : Oracle) : Option FileHashes → Bytes
  | some f => O.serializeFileHashes f
  | none => []

/-- `LocalDevice.dumpb`: re-serialize the live identity with struct version 1;
the private key is re-exported, the client id and VMP re-serialized, and a VMP
length field is always written (zero when there is no VMP payload, in which
case no payload bytes follow). When the device has no private key the source
computes `private_key = None` and hands it to construct's `Bytes.build`,
which raises — modeled as the `KeylessDump` error. -/
def dumpb (O : Oracle) (d : LocalDevice) : Except VtError Bytes :=
  match d.privateKey with
  | none => .error .KeylessDump
  | some k =>
    .ok ([87, 86, 68, 1, deviceTypeVal d.type, d.securityLevel, flagsByte d.flags]
      ++ u16enc (O.rsaExportDER k).length ++ O.rsaExportDER k
      ++ u16enc (serializeCidOpt O d.clientId).length ++ serializeCidOpt O d.clientId
      ++ u16enc (serializeVmpOpt O d.vmp).length
      ++ (if (serializeVmpOpt O d.vmp).length = 0 then [] else serializeVmpOpt O d.vmp))

/-- Spec-side key-derivation formula, written from the specification: each
derived key is `CMAC(session_key, single_index_byte || context)`, `enc` from
index 1 over the ENCRYPTION context, `auth_1` the concatenation for indices
1 and 2 over the AUTHENTICATION context, `auth_2` the concatenation for
indices 3 and 4. -/
def specDerivedKeys (O : Oracle) (sessionKey msgBytes : Bytes) : DerivedKeys where
  enc := some (O.cmacAES sessionKey (1 :: encKeyBase msgBytes))
  auth_1 := some (O.cmacAES sessionKey (1 :: authKeyBase msgBytes)
    ++ O.cmacAES sessionKey (2 :: authKeyBase msgBytes))
  auth_2 := some (O.cmacAES sessionKey (3 :: authKeyBase msgBytes)
    ++ O.cmacAES sessionKey (4 :: authKeyBase msgBytes))

/-- Spec-side description of the key extracted from one container: material is
the AES-CBC decryption of the payload under the derived `enc` key with the
container IV, PKCS#7-unpadded; the id falls back to the type name when the
container has none; permissions are the true boolean permission fields, only
for OPERATOR_SESSION containers. -/
def specKeyOfContainer (O : Oracle) (encKey : Bytes) (c : KeyContainer) : Key where
  kid := if c.id = [] then strBytes (keyTypeName c.type) else c.id
  keyType := keyTypeName c.type
  key := (unpad16 (O.aesCbcDecrypt encKey c.iv c.key)).getD []
  permissions :=
    if c.type = .OPERATOR_SESSION then permissionList c.operatorSessionKeyPermissions
    else []

/-- Concrete oracle instantiation used to evaluate the theorems on closed
inputs; every primitive is a simple total function. -/
def testOracle : Oracle where
  cmacAES := fun k m => (k ++ m ++ List.replicate 16 7).take 16
  hmacSHA256 := fun k m => k ++ m
  aesCbcEncrypt := fun _ _ pt => pt
  aesCbcDecrypt := fun _ _ ct => ct
  oaepEncrypt := fun _ pt => pt
  oaepDecrypt := fun _ ct => ct
  pssSign := fun _ m => 9 :: m
  cdmapiSign := fun m => 8 :: m
  cdmapiDecrypt := fun c => c
  b64decode := fun t => strBytes t
  rsaImport := fun b => some b
  rsaExportDER := fun b => b
  parseClientId := fun b => some { blob := b, fileHashes := none, tokenSystemId := 5 }
  serializeClientId := fun c => c.blob
  parseFileHashes := fun b => some { blob := b }
  serializeFileHashes := fun f => f.blob
  parseSignedMessage := fun b => some { msg := b }
  parseSignedDeviceCertificate := fun b =>
    some { deviceCertificate := { serviceId := b, serialNumber := b, publicKey := b },
           signature := [] }
  parseSignedLicense := fun b =>
    if b = [] then none
    else some { msg := { key := [] }, sessionKey := b.take 1, signature := b.drop 1 }
  serializeLicenseMsg := fun _ => []

/-- A concrete key container whose payload unpads successfully under the
identity-decryption test oracle. -/
def testContainer : KeyContainer where
  id := []
  type := .CONTENT
  iv := [0]
  key := List.replicate 16 16
  operatorSessionKeyPermissions :=
    { allowEncrypt := false, allowDecrypt := false, allowSign := false,
      allowSignatureVerify := false }

/-- Variant of the test oracle whose license responses verify: the carried
signature always equals the (constant) HMAC value. -/
def okOracle : Oracle :=
  { testOracle with
    hmacSHA256 := fun _ _ => []
    parseSignedLicense := fun b =>
      some { msg := { key := [testContainer] }, sessionKey := b, signature := [] } }

/-- Variant of the test oracle whose client-id serialization is sensitive to
the merged VMP slot, exhibiting the non-round-trippability of the merge. -/
def vmpOracle : Oracle :=
  { testOracle with
    serializeClientId := fun c => if c.fileHashes.isSome then [9, 9] else c.blob }

/-- A concrete client identification record. -/
def testCid : ClientIdentification where
  blob := [3, 1, 4]
  fileHashes := none
  tokenSystemId := 5

/-- A concrete signed service certificate. -/
def testCert : SignedDeviceCertificate where
  deviceCertificate :=
    { serviceId := [83, 73, 68], serialNumber := [42, 43], publicKey := [11] }
  signature := []

/-- A concrete local device with a private key and the nonce flag set. -/
def testDevice : LocalDevice where
  type := .ANDROID
  securityLevel := 3
  flags := some { sendKeyControlNonce := true }
  privateKey := some [13]
  clientId := some testCid
  vmp := none
  systemId := some 5

/-- Concrete entropy for challenge construction. -/
def testEntropy : Entropy where
  nonceSeed := 7
  cidKey := List.replicate 16 1
  cidIv := List.replicate 16 2

/-- A fresh session: no challenge issued yet, no keys. -/
def freshSession : WvSession where
  sessionId := [1, 2]
  cencHeader := [9]
  raw := false
  offline := false
  privacyMode := false
  signedDeviceCertificate := none
  licenseRequest := none
  signedLicense := none
  sessionKey := none
  derivedKeys := { enc := none, auth_1 := none, auth_2 := none }
  keys := []

/-- A concrete pending signed license request. -/
def testRequest : SignedLicenseRequest where
  raw := false
  msg :=
    { pssh := [9]
      licenseType := .DEFAULT
      requestId := [1, 2]
      requestTime := 100
      keyControlNonce := none
      clientId := some testCid
      encryptedClientId := none }
  signature := [0]

/-- A session that has already issued a challenge. -/
def pendingSession : WvSession :=
  { freshSession with licenseRequest := some testRequest }

/-- A session with privacy mode active. -/
def privacySession : WvSession :=
  { freshSession with privacyMode := true, signedDeviceCertificate := some testCert }

/-- A concrete valid version-1 device blob: one-byte private key, one-byte
client id, no VMP section. -/
def wvdBlob : Bytes := [87, 86, 68, 1, 2, 3, 1, 0, 1, 13, 0, 1, 7]

/-- The parsed fields of `wvdBlob`. -/
def wvdFields : WVDFields where
  version := 1
  type := .ANDROID
  securityLevel := 3
  flagsRaw := 1
  flags := some { sendKeyControlNonce := true }
  privateKey := [13]
  clientId := [7]
  vmpLen := none
  vmp := none

/-- A concrete device blob with a one-byte private key carrying a VMP section
(used to exhibit the load-only VMP merge). -/
def wvdVmpBlob : Bytes := [87, 86, 68, 1, 1, 0, 0, 0, 1, 13, 0, 1, 7, 0, 1, 5]

/-- A concrete valid version-1 device blob with `private_key_len = 0` (a
keyless device) and no VMP section. -/
def wvdKeylessBlob : Bytes := [87, 86, 68, 1, 1, 0, 0, 0, 0, 0, 1, 7]

theorem containsBytes_of_eq {n h : Bytes} (u v : Bytes) (e : h = u ++ n ++ v) :
    ContainsBytes n h := ⟨u, v, e⟩

theorem ContainsBytes.appendLeft {n h : Bytes} (x : Bytes) (c : ContainsBytes n h) :
    ContainsBytes n (x ++ h) := by
  obtain ⟨u, v, rfl⟩ := c
  exact ⟨x ++ u, v, by simp⟩

theorem ContainsBytes.appendRight {n h : Bytes} (x : Bytes) (c : ContainsBytes n h) :
    ContainsBytes n (h ++ x) := by
  obtain ⟨u, v, rfl⟩ := c
  exact ⟨u, v ++ x, by simp⟩

theorem containsBytes_encField (t : Nat) (p : Bytes) : ContainsBytes p (encField t p) :=
  ⟨[t, p.length], [], by simp [encField]⟩

theorem ContainsBytes.encFieldLift {n p : Bytes} (t : Nat) (c : ContainsBytes n p) :
    ContainsBytes n (encField t p) := by
  obtain ⟨u, v, rfl⟩ := c
  exact ⟨t :: (u ++ n ++ v).length :: u, v, by simp [encField]⟩

theorem extractKeys_err (O : Oracle) (k : Bytes) (e : VtError) :
    ∀ l : List KeyContainer, (extractKeys O k l).2 = some e → e = .PaddingError := by
  intro l
  induction l with
  | nil => intro h; simp [extractKeys] at h
  | cons c rest ih =>
    intro h
    simp only [extractKeys] at h
    split at h
    · simp at h
      exact h.symm
    · exact ih h

theorem deriveKeysCode_eq_spec (O : Oracle) (k m : Bytes) :
    deriveKeysCode O k m = specDerivedKeys O k m := by
  simp [deriveKeysCode, specDerivedKeys, get_auth_keys]

/-- Claim C6: with no pending request on the session, `parse_license` fails
with `NoPendingRequest` whatever the response bytes are, leaving the session
untouched. -/
theorem C6_no_pending_request (O : Oracle) (cs : Bool) (d : LocalDevice)
    (s : WvSession) (res : ByteInput) (h : s.licenseRequest = none) :
    parse_license O cs d s res = (.error .NoPendingRequest, s) := by
  simp [parse_license, h]

/-- Witness for C6 at a concrete fresh session. -/
theorem C6_no_pending_request_witness :
    parse_license testOracle false testDevice freshSession (.bytes [3]) =
      (.error .NoPendingRequest, freshSession) :=
  C6_no_pending_request testOracle false testDevice freshSession (.bytes [3]) rfl

/-- Claim C10: for both `set_service_certificate` and `parse_license`, passing
the base64 string form of the untrusted input produces exactly the same result
and session state as passing the decoded bytes directly. -/
theorem C10_string_bytes_equiv (O : Oracle) (cs : Bool) (d : LocalDevice)
    (s : WvSession) (t : String) :
    parse_license O cs d s (.str t) = parse_license O cs d s (.bytes (O.b64decode t))
    ∧ set_service_certificate O s (.str t) =
        set_service_certificate O s (.bytes (O.b64decode t)) :=
  ⟨rfl, rfl⟩

/-- Claim C1: whenever the carried signature differs from HMAC-SHA256 keyed by
the derived `auth_1` key over the response's inner message bytes,
`parse_license` fails with `SignatureMismatch` and `session.keys` is exactly
what it was before the call. -/
theorem C1_signature_mismatch_no_keys (O : Oracle) (cs : Bool) (d : LocalDevice)
    (s : WvSession) (res : ByteInput) (lreq : SignedLicenseRequest) (sl : SignedLicense)
    (h1 : s.licenseRequest = some lreq)
    (h2 : O.parseSignedLicense (inputBytes O res) = some sl)
    (h3 : O.hmacSHA256
        (get_auth_keys O (recoverSessionKey O cs d sl)
          (authKeyBase (serializeLicenseRequestMsg O lreq.msg)) [1, 2])
        (O.serializeLicenseMsg sl.msg) ≠ sl.signature) :
    (parse_license O cs d s res).1 = .error .SignatureMismatch
    ∧ (parse_license O cs d s res).2.keys = s.keys := by
  simp [parse_license, h1, h2, h3]

/-- Witness for C1: a concrete tampered response is rejected with
`SignatureMismatch` and the key list stays empty. -/
theorem C1_signature_mismatch_no_keys_witness :
    (parse_license testOracle false testDevice pendingSession (.bytes [3])).1 =
        .error .SignatureMismatch
    ∧ (parse_license testOracle false testDevice pendingSession (.bytes [3])).2.keys =
        pendingSession.keys :=
  C1_signature_mismatch_no_keys testOracle false testDevice pendingSession (.bytes [3])
    testRequest { msg := { key := [] }, sessionKey := [3], signature := [] }
    rfl (by decide) (by decide)

/-- Counterexample to claim C2 as stated: on a concrete `SignatureMismatch`
failure, `session_key` and `derived_keys` ARE observably populated (the code
derives them before verifying the signature), contradicting the claim that on
any failure none of them is populated. -/
theorem C2_counterexample :
    (parse_license testOracle false testDevice pendingSession (.bytes [5])).1 =
        .error .SignatureMismatch
    ∧ ((parse_license testOracle false testDevice pendingSession (.bytes [5])).2.sessionKey).isSome
        = true
    ∧ ((parse_license testOracle false testDevice pendingSession
          (.bytes [5])).2.derivedKeys.enc).isSome = true := by
  refine ⟨by decide, by decide, by decide⟩

/-- Claim C2 (amended): on success `session_key`, `derived_keys` and `keys`
are all populated in the final state; failures before the response decodes
(`NoPendingRequest`, `MalformedResponse`) leave the session unchanged; a
`SignatureMismatch` leaves `keys` unchanged but `session_key` and
`derived_keys` already populated; a padding failure during extraction keeps
the keys appended so far. -/
theorem C2_failure_states (O : Oracle) (cs : Bool) (d : LocalDevice)
    (s : WvSession) (res : ByteInput) :
    ((parse_license O cs d s res).1 = .ok true →
      ((parse_license O cs d s res).2.sessionKey).isSome = true
      ∧ ((parse_license O cs d s res).2.derivedKeys.enc).isSome = true
      ∧ ((parse_license O cs d s res).2.derivedKeys.auth_1).isSome = true
      ∧ ((parse_license O cs d s res).2.derivedKeys.auth_2).isSome = true)
    ∧ ((parse_license O cs d s res).1 = .error .NoPendingRequest →
        (parse_license O cs d s res).2 = s)
    ∧ ((parse_license O cs d s res).1 = .error .MalformedResponse →
        (parse_license O cs d s res).2 = s)
    ∧ ((parse_license O cs d s res).1 = .error .SignatureMismatch →
        (parse_license O cs d s res).2.keys = s.keys
        ∧ ((parse_license O cs d s res).2.sessionKey).isSome = true
        ∧ ((parse_license O cs d s res).2.derivedKeys.enc).isSome = true)
    ∧ ((parse_license O cs d s res).1 = .error .PaddingError →
        ((parse_license O cs d s res).2.sessionKey).isSome = true
        ∧ ∃ tail, (parse_license O cs d s res).2.keys = s.keys ++ tail) := by
  cases h1 : s.licenseRequest with
  | none => simp [parse_license, h1]
  | some lreq =>
    cases h2 : O.parseSignedLicense (inputBytes O res) with
    | none => simp [parse_license, h1, h2]
    | some sl =>
      simp only [parse_license, h1, h2]
      split
      · simp [deriveKeysCode]
      · split
        · rename_i e heq
          have he : e = .PaddingError := extractKeys_err O _ _ _ heq
          subst he
          simp [deriveKeysCode]
        · simp [deriveKeysCode]

/-- Witness for C2 (amended) on a concrete successfully parsed response. -/
theorem C2_failure_states_witness :
    ((parse_license okOracle false testDevice pendingSession (.bytes [2])).2.sessionKey).isSome
        = true
    ∧ ((parse_license okOracle false testDevice pendingSession
          (.bytes [2])).2.derivedKeys.enc).isSome = true
    ∧ ((parse_license okOracle false testDevice pendingSession
          (.bytes [2])).2.derivedKeys.auth_1).isSome = true
    ∧ ((parse_license okOracle false testDevice pendingSession
          (.bytes [2])).2.derivedKeys.auth_2).isSome = true :=
  (C2_failure_states okOracle false testDevice pendingSession (.bytes [2])).1 (by decide)

theorem parse_license_derivedKeys (O : Oracle) (cs : Bool) (d : LocalDevice)
    (s : WvSession) (res : ByteInput) (lreq : SignedLicenseRequest) (sl : SignedLicense)
    (h1 : s.licenseRequest = some lreq)
    (h2 : O.parseSignedLicense (inputBytes O res) = some sl) :
    (parse_license O cs d s res).2.derivedKeys
      = deriveKeysCode O (recoverSessionKey O cs d sl) (serializeLicenseRequestMsg O lreq.msg) := by
  simp only [parse_license, h1, h2]
  split
  · rfl
  · split
    · rfl
    · rfl

/-- Claim C3: the three derived keys equal the spec's CMAC formulas over the
recovered session key and the exact serialized bytes of the pending request's
inner message (16-byte `enc`, 32-byte `auth_1`/`auth_2` given a 16-byte CMAC),
and re-derivation from the same two inputs is byte-identical. -/
theorem C3_kdf_deterministic (O : Oracle) (cs : Bool) (d : LocalDevice)
    (s : WvSession) (res : ByteInput) (lreq : SignedLicenseRequest) (sl : SignedLicense)
    (hlen : ∀ k m, (O.cmacAES k m).length = 16)
    (h1 : s.licenseRequest = some lreq)
    (h2 : O.parseSignedLicense (inputBytes O res) = some sl) :
    (parse_license O cs d s res).2.derivedKeys
      = specDerivedKeys O (recoverSessionKey O cs d sl) (serializeLicenseRequestMsg O lreq.msg)
    ∧ (∃ e, (parse_license O cs d s res).2.derivedKeys.enc = some e ∧ e.length = 16)
    ∧ (∃ a, (parse_license O cs d s res).2.derivedKeys.auth_1 = some a ∧ a.length = 32)
    ∧ (∃ a, (parse_license O cs d s res).2.derivedKeys.auth_2 = some a ∧ a.length = 32)
    ∧ (∀ (d2 : LocalDevice) (s2 : WvSession) (res2 : ByteInput)
          (lreq2 : SignedLicenseRequest) (sl2 : SignedLicense),
        s2.licenseRequest = some lreq2 →
        O.parseSignedLicense (inputBytes O res2) = some sl2 →
        serializeLicenseRequestMsg O lreq2.msg = serializeLicenseRequestMsg O lreq.msg →
        recoverSessionKey O cs d2 sl2 = recoverSessionKey O cs d sl →
        (parse_license O cs d2 s2 res2).2.derivedKeys
          = (parse_license O cs d s res).2.derivedKeys) := by
  have hd := parse_license_derivedKeys O cs d s res lreq sl h1 h2
  refine ⟨by rw [hd, deriveKeysCode_eq_spec], ?_, ?_, ?_, ?_⟩
  · refine ⟨_, by rw [hd]; rfl, ?_⟩
    simp [get_auth_keys, hlen]
  · refine ⟨_, by rw [hd]; rfl, ?_⟩
    simp [get_auth_keys, hlen]
  · refine ⟨_, by rw [hd]; rfl, ?_⟩
    simp [get_auth_keys, hlen]
  · intro d2 s2 res2 lreq2 sl2 g1 g2 gm gk
    rw [parse_license_derivedKeys O cs d2 s2 res2 lreq2 sl2 g1 g2, hd, gm, gk]

/-- Witness for C3 on a concrete response. -/
theorem C3_kdf_deterministic_witness :
    (parse_license testOracle false testDevice pendingSession (.bytes [3])).2.derivedKeys
      = specDerivedKeys testOracle
          (recoverSessionKey testOracle false testDevice
            { msg := { key := [] }, sessionKey := [3], signature := [] })
          (serializeLicenseRequestMsg testOracle testRequest.msg) :=
  (C3_kdf_deterministic testOracle false testDevice pendingSession (.bytes [3]) testRequest
    { msg := { key := [] }, sessionKey := [3], signature := [] }
    (fun k m => by simp [testOracle]; omega) rfl (by decide)).1

/-- Claim C7: `get_license_challenge` fails with `MissingIdentity` when the
client identification is absent, with `MissingSigningCapability` when neither
a private key nor the cdmapi signer is available, and otherwise neither of
those errors occurs and (given the privacy-mode certificate when needed) a
challenge is produced. -/
theorem C7_challenge_guards (O : Oracle) (cs : Bool) (d : LocalDevice)
    (rnd : Entropy) (now : Nat) (s : WvSession) :
    (d.clientId = none →
      get_license_challenge O cs d rnd now s = (.error .MissingIdentity, s))
    ∧ (d.clientId.isSome = true → d.privateKey = none → cs = false →
        get_license_challenge O cs d rnd now s = (.error .MissingSigningCapability, s))
    ∧ (d.clientId.isSome = true → (d.privateKey.isSome = true ∨ cs = true) →
        (get_license_challenge O cs d rnd now s).1 ≠ .error .MissingIdentity
        ∧ (get_license_challenge O cs d rnd now s).1 ≠ .error .MissingSigningCapability
        ∧ ((s.privacyMode = true → s.signedDeviceCertificate.isSome = true) →
            ∃ ch, (get_license_challenge O cs d rnd now s).1 = .ok ch)) := by
  refine ⟨?_, ?_, ?_⟩
  · intro h
    simp [get_license_challenge, h]
  · intro hcid hpk hcs
    cases hc : d.clientId with
    | none => rw [hc] at hcid; simp at hcid
    | some cid => simp [get_license_challenge, hc, hpk, hcs]
  · intro hcid hsig
    cases hc : d.clientId with
    | none => rw [hc] at hcid; simp at hcid
    | some cid =>
      have hguard : (d.privateKey.isNone && !cs) = false := by
        rcases hsig with h | h
        · cases hp : d.privateKey with
          | none => rw [hp] at h; simp at h
          | some k => simp
        · simp [h]
      simp only [get_license_challenge, hc, hguard, Bool.false_eq_true, if_false]
      cases hpm : s.privacyMode with
      | false =>
        simp [finishChallenge]
      | true =>
        cases hcert : s.signedDeviceCertificate with
        | none =>
          refine ⟨by simp, by simp, ?_⟩
          intro hyp
          have := hyp rfl
          simp at this
        | some sdc =>
          simp [finishChallenge]

/-- Witness for C7: a device without a private key and without cdmapi fails
with `MissingSigningCapability`. -/
theorem C7_challenge_guards_witness :
    get_license_challenge testOracle false { testDevice with privateKey := none }
        testEntropy 0 freshSession
      = (.error .MissingSigningCapability, freshSession) :=
  (C7_challenge_guards testOracle false { testDevice with privateKey := none }
    testEntropy 0 freshSession).2.1 (by decide) rfl rfl

/-- Claim C8: the built license request carries a key-control nonce exactly
when the `send_key_control_nonce` flag is set, and then its value lies in
`[1, 2^31)`; with the flag clear the nonce field is absent. -/
theorem C8_nonce (O : Oracle) (cs : Bool) (d : LocalDevice) (cid : ClientIdentification)
    (rnd : Entropy) (now : Nat) (s : WvSession)
    (hc : d.clientId = some cid)
    (hsig : d.privateKey.isSome = true ∨ cs = true)
    (hcert : s.privacyMode = true → s.signedDeviceCertificate.isSome = true) :
    ∃ slr, (get_license_challenge O cs d rnd now s).2.licenseRequest = some slr
      ∧ (flagSet d = true →
          slr.msg.keyControlNonce = some (randrange rnd.nonceSeed 1 (2 ^ 31))
          ∧ ∃ n, slr.msg.keyControlNonce = some n ∧ 1 ≤ n ∧ n < 2 ^ 31)
      ∧ (flagSet d = false → slr.msg.keyControlNonce = none) := by
  have hguard : (d.privateKey.isNone && !cs) = false := by
    rcases hsig with h | h
    · cases hp : d.privateKey with
      | none => rw [hp] at h; simp at h
      | some k => simp
    · simp [h]
  have hrange : 1 ≤ randrange rnd.nonceSeed 1 (2 ^ 31)
      ∧ randrange rnd.nonceSeed 1 (2 ^ 31) < 2 ^ 31 := by
    unfold randrange
    constructor
    · omega
    · have := Nat.mod_lt rnd.nonceSeed (y := 2 ^ 31 - 1) (by norm_num)
      omega
  have nonceProp : ∀ slr : SignedLicenseRequest,
      slr.msg.keyControlNonce
        = (if flagSet d = true then some (randrange rnd.nonceSeed 1 (2 ^ 31)) else none) →
      (flagSet d = true →
        slr.msg.keyControlNonce = some (randrange rnd.nonceSeed 1 (2 ^ 31))
        ∧ ∃ n, slr.msg.keyControlNonce = some n ∧ 1 ≤ n ∧ n < 2 ^ 31)
      ∧ (flagSet d = false → slr.msg.keyControlNonce = none) := by
    intro slr hEq
    constructor
    · intro hf
      exact ⟨by simp [hEq, hf], _, by simp [hEq, hf], hrange.1, hrange.2⟩
    · intro hf
      simp [hEq, hf]
  simp only [get_license_challenge, hc, hguard, Bool.false_eq_true, if_false]
  cases hpm : s.privacyMode with
  | false => exact ⟨_, rfl, nonceProp _ rfl⟩
  | true =>
    cases hcert2 : s.signedDeviceCertificate with
    | none =>
      have hx := hcert hpm
      rw [hcert2] at hx
      simp at hx
    | some sdc => exact ⟨_, rfl, nonceProp _ rfl⟩

/-- Witness for C8 on a concrete device with the nonce flag set. -/
theorem C8_nonce_witness :
    ∃ slr, (get_license_challenge testOracle false testDevice testEntropy 55
        freshSession).2.licenseRequest = some slr
      ∧ (flagSet testDevice = true →
          slr.msg.keyControlNonce = some (randrange testEntropy.nonceSeed 1 (2 ^ 31))
          ∧ ∃ n, slr.msg.keyControlNonce = some n ∧ 1 ≤ n ∧ n < 2 ^ 31)
      ∧ (flagSet testDevice = false → slr.msg.keyControlNonce = none) :=
  C8_nonce testOracle false testDevice testCid testEntropy 55 freshSession rfl
    (Or.inl rfl) (fun h => absurd h (by decide))

theorem keyTypeName_opsess (t : KeyType) :
    keyTypeName t = "OPERATOR_SESSION" ↔ t = .OPERATOR_SESSION := by
  cases t <;> simp [keyTypeName]

theorem containerKey_eq_spec (O : Oracle) (k : Bytes) (c : KeyContainer) (m : Bytes)
    (hm : unpad16 (O.aesCbcDecrypt k c.iv c.key) = some m) :
    containerKey c m = specKeyOfContainer O k c := by
  by_cases hid : c.id = [] <;>
    simp [containerKey, specKeyOfContainer, hid, hm, keyTypeName_opsess]

theorem extractKeys_ok (O : Oracle) (k : Bytes) :
    ∀ l : List KeyContainer,
      (∀ c ∈ l, (unpad16 (O.aesCbcDecrypt k c.iv c.key)).isSome = true) →
      extractKeys O k l = (l.map (specKeyOfContainer O k), none) := by
  intro l
  induction l with
  | nil => intro _; rfl
  | cons c rest ih =>
    intro h
    have hc := h c (List.mem_cons_self c rest)
    obtain ⟨m, hm⟩ := Option.isSome_iff_exists.mp hc
    have hrest := ih (fun x hx => h x (List.mem_cons_of_mem c hx))
    simp [extractKeys, hm, hrest, containerKey_eq_spec O k c m hm]

/-- Claim C9: on a verified response whose container payloads unpad cleanly,
`parse_license` appends one `Key` per container — material the AES-CBC
decryption under the derived `enc` key with the container IV, PKCS#7-unpadded;
id the container id or, when absent, the type name as bytes — and the
permission list is non-empty only for OPERATOR_SESSION containers, where it
names exactly the true boolean permission fields. -/
theorem C9_key_extraction (O : Oracle) (cs : Bool) (d : LocalDevice)
    (s : WvSession) (res : ByteInput) (lreq : SignedLicenseRequest) (sl : SignedLicense)
    (h1 : s.licenseRequest = some lreq)
    (h2 : O.parseSignedLicense (inputBytes O res) = some sl)
    (h3 : O.hmacSHA256
        (get_auth_keys O (recoverSessionKey O cs d sl)
          (authKeyBase (serializeLicenseRequestMsg O lreq.msg)) [1, 2])
        (O.serializeLicenseMsg sl.msg) = sl.signature)
    (h4 : ∀ c ∈ sl.msg.key,
        (unpad16 (O.aesCbcDecrypt
          (get_auth_keys O (recoverSessionKey O cs d sl)
            (encKeyBase (serializeLicenseRequestMsg O lreq.msg)) [1])
          c.iv c.key)).isSome = true) :
    (parse_license O cs d s res).1 = .ok true
    ∧ (parse_license O cs d s res).2.keys
        = s.keys ++ sl.msg.key.map (specKeyOfContainer O
            (get_auth_keys O (recoverSessionKey O cs d sl)
              (encKeyBase (serializeLicenseRequestMsg O lreq.msg)) [1]))
    ∧ (∀ c ∈ sl.msg.key, c.type ≠ .OPERATOR_SESSION →
        (specKeyOfContainer O
          (get_auth_keys O (recoverSessionKey O cs d sl)
            (encKeyBase (serializeLicenseRequestMsg O lreq.msg)) [1]) c).permissions = [])
    ∧ (∀ c ∈ sl.msg.key, c.type = .OPERATOR_SESSION →
        (specKeyOfContainer O
          (get_auth_keys O (recoverSessionKey O cs d sl)
            (encKeyBase (serializeLicenseRequestMsg O lreq.msg)) [1]) c).permissions
          = permissionList c.operatorSessionKeyPermissions) := by
  have hex := extractKeys_ok O _ sl.msg.key h4
  simp only [parse_license, h1, h2]
  rw [if_neg (fun hne => hne h3)]
  simp only [hex]
  refine ⟨?_, ?_, ?_, ?_⟩
  · trivial
  · trivial
  · intro c _ ht
    simp [specKeyOfContainer, ht]
  · intro c _ ht
    simp [specKeyOfContainer, ht]

/-- Witness for C9 on a concrete verified response with one CONTENT
container. -/
theorem C9_key_extraction_witness :
    (parse_license okOracle false testDevice pendingSession (.bytes [2])).1 = .ok true
    ∧ (parse_license okOracle false testDevice pendingSession (.bytes [2])).2.keys
        = pendingSession.keys ++ [testContainer].map (specKeyOfContainer okOracle
            (get_auth_keys okOracle
              (recoverSessionKey okOracle false testDevice
                { msg := { key := [testContainer] }, sessionKey := [2], signature := [] })
              (encKeyBase (serializeLicenseRequestMsg okOracle testRequest.msg)) [1])) :=
  (fun h => ⟨h.1, h.2.1⟩)
    (C9_key_extraction okOracle false testDevice pendingSession (.bytes [2]) testRequest
      { msg := { key := [testContainer] }, sessionKey := [2], signature := [] }
      rfl rfl rfl (by decide))

theorem signGuard_false {d : LocalDevice} {cs : Bool}
    (hsig : d.privateKey.isSome = true ∨ cs = true) :
    (d.privateKey.isNone && !cs) = false := by
  rcases hsig with h | h
  · cases hp : d.privateKey with
    | none => rw [hp] at h; simp at h
    | some k => simp
  · simp [h]

theorem encCid_fields_in_challenge (O : Oracle) (r : SignedLicenseRequest)
    (e : EncryptedClientIdentification) (he : r.msg.encryptedClientId = some e) :
    ContainsBytes e.serviceId (serializeSignedLicenseRequest O r)
    ∧ ContainsBytes e.serviceCertificateSerialNumber (serializeSignedLicenseRequest O r) := by
  have c1 : ContainsBytes e.serviceId (serializeEncClientId e) := by
    unfold serializeEncClientId
    exact ((((containsBytes_encField 1 e.serviceId).appendRight _).appendRight
      _).appendRight _).appendRight _
  have c2 : ContainsBytes e.serviceCertificateSerialNumber (serializeEncClientId e) := by
    unfold serializeEncClientId
    exact ((((containsBytes_encField 2
      e.serviceCertificateSerialNumber).appendLeft _).appendRight _).appendRight _).appendRight _
  have lift : ∀ n : Bytes, ContainsBytes n (serializeEncClientId e) →
      ContainsBytes n (serializeSignedLicenseRequest O r) := by
    intro n hn
    unfold serializeSignedLicenseRequest serializeLicenseRequestMsg
    rw [he]
    simp only [Option.map_some', encOptField]
    exact (((hn.encFieldLift 5).appendLeft _).encFieldLift 2).appendLeft _ |>.appendRight _
  exact ⟨lift _ c1, lift _ c2⟩

/-- Claim C4: in privacy mode the challenge embeds an encrypted client id
carrying the certificate's service id and serial number (both present in the
challenge bytes) and no plaintext client-id field; without privacy mode the
plaintext client id is embedded and no encrypted one — the two are mutually
exclusive. Moreover the plaintext identity reaches the privacy-mode challenge
only through the AES encryption: devices whose padded serialized client ids
encrypt identically produce identical challenges. -/
theorem C4_privacy_exclusivity (O : Oracle) (cs : Bool) (d : LocalDevice)
    (cid : ClientIdentification) (rnd : Entropy) (now : Nat) (s : WvSession)
    (hc : d.clientId = some cid)
    (hsig : d.privateKey.isSome = true ∨ cs = true) :
    (∀ sdc, s.privacyMode = true → s.signedDeviceCertificate = some sdc →
      ∃ ch slr,
        (get_license_challenge O cs d rnd now s).1 = .ok ch
        ∧ (get_license_challenge O cs d rnd now s).2.licenseRequest = some slr
        ∧ ch = serializeSignedLicenseRequest O slr
        ∧ slr.msg.clientId = none
        ∧ slr.msg.encryptedClientId = some (privacyEncCid O cid rnd sdc)
        ∧ (privacyEncCid O cid rnd sdc).serviceId = sdc.deviceCertificate.serviceId
        ∧ (privacyEncCid O cid rnd sdc).serviceCertificateSerialNumber
            = sdc.deviceCertificate.serialNumber
        ∧ (privacyEncCid O cid rnd sdc).encryptedClientId
            = O.aesCbcEncrypt rnd.cidKey rnd.cidIv (pad16 (O.serializeClientId cid))
        ∧ ContainsBytes sdc.deviceCertificate.serviceId ch
        ∧ ContainsBytes sdc.deviceCertificate.serialNumber ch)
    ∧ (s.privacyMode = false →
        ∃ ch slr,
          (get_license_challenge O cs d rnd now s).1 = .ok ch
          ∧ (get_license_challenge O cs d rnd now s).2.licenseRequest = some slr
          ∧ slr.msg.clientId = some cid
          ∧ slr.msg.encryptedClientId = none)
    ∧ (∀ cid2, s.privacyMode = true →
        O.aesCbcEncrypt rnd.cidKey rnd.cidIv (pad16 (O.serializeClientId cid2))
          = O.aesCbcEncrypt rnd.cidKey rnd.cidIv (pad16 (O.serializeClientId cid)) →
        get_license_challenge O cs { d with clientId := some cid2 } rnd now s
          = get_license_challenge O cs d rnd now s) := by
  refine ⟨?_, ?_, ?_⟩
  · intro sdc hpm hcert
    have EQ : get_license_challenge O cs d rnd now s
        = finishChallenge O cs d s
            { baseMsg d rnd now s with
                encryptedClientId := some (privacyEncCid O cid rnd sdc) } := by
      simp [get_license_challenge, hc, signGuard_false hsig, hpm, hcert]
    rw [EQ]
    have hin := encCid_fields_in_challenge O
      (challengeSLR O cs d s
        { baseMsg d rnd now s with
            encryptedClientId := some (privacyEncCid O cid rnd sdc) })
      (privacyEncCid O cid rnd sdc) rfl
    exact ⟨_, _, rfl, rfl, rfl, rfl, rfl, rfl, rfl, rfl, hin.1, hin.2⟩
  · intro hpm
    have EQ : get_license_challenge O cs d rnd now s
        = finishChallenge O cs d s { baseMsg d rnd now s with clientId := some cid } := by
      simp [get_license_challenge, hc, signGuard_false hsig, hpm]
    rw [EQ]
    exact ⟨_, _, rfl, rfl, rfl, rfl⟩
  · intro cid2 hpm hct
    cases hcert : s.signedDeviceCertificate with
    | none =>
      simp [get_license_challenge, hc, signGuard_false hsig, hpm, hcert]
    | some sdc =>
      have EQ1 : get_license_challenge O cs d rnd now s
          = finishChallenge O cs d s
              { baseMsg d rnd now s with
                  encryptedClientId := some (privacyEncCid O cid rnd sdc) } := by
        simp [get_license_challenge, hc, signGuard_false hsig, hpm, hcert]
      have EQ2 : get_license_challenge O cs { d with clientId := some cid2 } rnd now s
          = finishChallenge O cs { d with clientId := some cid2 } s
              { baseMsg { d with clientId := some cid2 } rnd now s with
                  encryptedClientId := some (privacyEncCid O cid2 rnd sdc) } := by
        simp [get_license_challenge, signGuard_false hsig, hpm, hcert]
      rw [EQ1, EQ2]
      simp only [privacyEncCid]
      rw [hct]
      simp [finishChallenge, challengeSLR, baseMsg, flagSet, signMsg]

/-- Witness for C4 on a concrete privacy-mode session. -/
theorem C4_privacy_exclusivity_witness :
    ∃ ch slr,
      (get_license_challenge testOracle false testDevice testEntropy 10 privacySession).1
          = .ok ch
      ∧ (get_license_challenge testOracle false testDevice testEntropy 10
          privacySession).2.licenseRequest = some slr
      ∧ ch = serializeSignedLicenseRequest testOracle slr
      ∧ slr.msg.clientId = none
      ∧ slr.msg.encryptedClientId
          = some (privacyEncCid testOracle testCid testEntropy testCert)
      ∧ (privacyEncCid testOracle testCid testEntropy testCert).serviceId
          = testCert.deviceCertificate.serviceId
      ∧ (privacyEncCid testOracle testCid testEntropy testCert).serviceCertificateSerialNumber
          = testCert.deviceCertificate.serialNumber
      ∧ (privacyEncCid testOracle testCid testEntropy testCert).encryptedClientId
          = testOracle.aesCbcEncrypt testEntropy.cidKey testEntropy.cidIv
              (pad16 (testOracle.serializeClientId testCid))
      ∧ ContainsBytes testCert.deviceCertificate.serviceId ch
      ∧ ContainsBytes testCert.deviceCertificate.serialNumber ch :=
  (C4_privacy_exclusivity testOracle false testDevice testCid testEntropy 10 privacySession
    rfl (Or.inl rfl)).1 testCert rfl rfl

theorem parseVmp_none (r : Bytes)
    (h : (parseVmp r).1 = none ∨ (parseVmp r).1 = some 0) : (parseVmp r).2 = none := by
  match r with
  | [] => rfl
  | [p] => rfl
  | p :: q :: r4 =>
    by_cases h0 : p * 256 + q = 0
    · simp [parseVmp, h0]
    · by_cases hlen : r4.length < p * 256 + q
      · simp [parseVmp, h0, hlen]
      · simp [parseVmp, h0, hlen] at h

theorem parseWVD_inv (b : Bytes) (w : WVDFields) (h : parseWVD b = some w) :
    w.flags = some { sendKeyControlNonce := w.flagsRaw % 2 = 1 }
    ∧ ((w.vmpLen = none ∨ w.vmpLen = some 0) → w.vmp = none) := by
  unfold parseWVD at h
  split at h
  · rename_i v t sl fl r0
    split at h
    · exact absurd h (by simp)
    · rename_i ty
      rcases hU : readU16 r0 with _ | ⟨pkLen, r1⟩ <;> simp only [hU] at h
      · exact absurd h (by simp)
      · rcases hB : readBytes pkLen r1 with _ | ⟨pk, r1r⟩ <;> simp only [hB] at h
        · exact absurd h (by simp)
        · rcases hU2 : readU16 r1r with _ | ⟨cidLen, r2⟩ <;> simp only [hU2] at h
          · exact absurd h (by simp)
          · rcases hB2 : readBytes cidLen r2 with _ | ⟨cid, r3⟩ <;> simp only [hB2] at h
            · exact absurd h (by simp)
            · injection h with h
              subst h
              exact ⟨rfl, parseVmp_none _⟩
  · exact absurd h (by simp)

theorem readU16_u16enc (n : Nat) (r : Bytes) : readU16 (u16enc n ++ r) = some (n, r) := by
  simp [readU16, u16enc, Nat.div_add_mod']

theorem readBytes_exact (p r : Bytes) : readBytes p.length (p ++ r) = some (p, r) := by
  unfold readBytes
  rw [if_neg (by rw [List.length_append]; omega), List.take_left, List.drop_left]

theorem parseWVD_dump (ty : DeviceType) (v sl flB : Nat) (pk cid : Bytes) :
    parseWVD ([87, 86, 68, v, deviceTypeVal ty, sl, flB]
        ++ u16enc pk.length ++ pk ++ u16enc cid.length ++ cid ++ [0, 0])
      = some {
          version := v, type := ty, securityLevel := sl, flagsRaw := flB,
          flags := some { sendKeyControlNonce := flB % 2 = 1 },
          privateKey := pk, clientId := cid, vmpLen := some 0, vmp := none } := by
  have h1 : readDeviceType (deviceTypeVal ty) = some ty := by cases ty <;> rfl
  have hl : [87, 86, 68, v, deviceTypeVal ty, sl, flB]
      ++ u16enc pk.length ++ pk ++ u16enc cid.length ++ cid ++ [0, 0]
      = 87 :: 86 :: 68 :: v :: deviceTypeVal ty :: sl :: flB ::
          (u16enc pk.length ++ (pk ++ (u16enc cid.length ++ (cid ++ [0, 0])))) := by
    simp [List.append_assoc]
  rw [hl]
  simp only [parseWVD, h1, readU16_u16enc, readBytes_exact]
  simp [parseVmp]

theorem flagsByte_round (n : Nat) (hlt : n < 2) :
    flagsByte (some { sendKeyControlNonce := n % 2 = 1 }) = n := by
  have h01 : n = 0 ∨ n = 1 := by omega
  rcases h01 with h0 | h0 <;> rw [h0] <;> simp [flagsByte]

theorem C5_aux (O : Oracle) (b : Bytes) (w : WVDFields) (k : Bytes)
    (c : ClientIdentification)
    (hv : w.version = 1) (hflt : w.flagsRaw < 2)
    (hflags : w.flags = some { sendKeyControlNonce := w.flagsRaw % 2 = 1 })
    (hc2 : O.serializeClientId c = w.clientId)
    (hload : load O b = .ok {
        type := w.type, securityLevel := w.securityLevel, flags := w.flags,
        privateKey := some k, clientId := some c, vmp := none,
        systemId := some c.tokenSystemId })
    (hpkB : O.rsaExportDER k = w.privateKey) :
    ∃ d db w2, load O b = .ok d ∧ dumpb O d = .ok db ∧ parseWVD db = some w2
      ∧ w2.version = w.version ∧ w2.type = w.type ∧ w2.securityLevel = w.securityLevel
      ∧ w2.flagsRaw = w.flagsRaw ∧ w2.flags = w.flags
      ∧ w2.privateKey = w.privateKey ∧ w2.clientId = w.clientId := by
  have hdump : dumpb O {
      type := w.type, securityLevel := w.securityLevel, flags := w.flags,
      privateKey := some k, clientId := some c, vmp := none,
      systemId := some c.tokenSystemId }
      = .ok ([87, 86, 68, 1, deviceTypeVal w.type, w.securityLevel, flagsByte w.flags]
        ++ u16enc w.privateKey.length ++ w.privateKey
        ++ u16enc w.clientId.length ++ w.clientId ++ [0, 0]) := by
    simp [dumpb, serializeCidOpt, serializeVmpOpt, hpkB, hc2, u16enc]
  have hparse : parseWVD ([87, 86, 68, 1, deviceTypeVal w.type, w.securityLevel,
        flagsByte w.flags]
      ++ u16enc w.privateKey.length ++ w.privateKey
      ++ u16enc w.clientId.length ++ w.clientId ++ [0, 0])
      = some {
        version := 1, type := w.type, securityLevel := w.securityLevel,
        flagsRaw := flagsByte w.flags,
        flags := some { sendKeyControlNonce := flagsByte w.flags % 2 = 1 },
        privateKey := w.privateKey, clientId := w.clientId,
        vmpLen := some 0, vmp := none } :=
    parseWVD_dump w.type 1 w.securityLevel (flagsByte w.flags) w.privateKey w.clientId
  refine ⟨_, _, _, hload, hdump, hparse, hv.symm, rfl, rfl, ?_, ?_, rfl, rfl⟩
  · show flagsByte w.flags = w.flagsRaw
    rw [hflags, flagsByte_round w.flagsRaw hflt]
  · show some { sendKeyControlNonce := flagsByte w.flags % 2 = 1 } = w.flags
    rw [hflags, flagsByte_round w.flagsRaw hflt]

/-- Counterexample to claim C5 as stated: a valid version-1 blob with
`private_key_len = 0` (legal per the format) and no VMP section loads
successfully, but `dumpb` on the loaded keyless device raises (the source
hands construct's `Bytes.build` a `None` private key), so re-serialization
reproduces nothing for this blob. -/
theorem C5_keyless_counterexample :
    parseWVD wvdKeylessBlob = some {
        version := 1, type := .CHROME, securityLevel := 0, flagsRaw := 0,
        flags := some { sendKeyControlNonce := false },
        privateKey := [], clientId := [7], vmpLen := none, vmp := none }
    ∧ ∃ d, load testOracle wvdKeylessBlob = .ok d
        ∧ dumpb testOracle d = .error .KeylessDump := by
  constructor
  · decide
  · have hld : load testOracle wvdKeylessBlob = .ok {
        type := .CHROME, securityLevel := 0,
        flags := some { sendKeyControlNonce := false },
        privateKey := none,
        clientId := some { blob := [7], fileHashes := none, tokenSystemId := 5 },
        vmp := none, systemId := some 5 } := by decide
    exact ⟨_, hld, by decide⟩

/-- Claim C5 (amended): loading a valid version-1 device blob that stores a
private key and whose VMP section is absent or empty, then re-serializing
with `dumpb`, reproduces the version, type, security level, flags,
private-key and client-id fields byte-exactly (given that the RSA and
protobuf library round-trips are identities on this blob's fields); a keyless
blob loads but cannot be dumped at all; and when a VMP blob was present and
merged into the client identification at load, byte-identity fails on a
concrete blob. -/
theorem C5_wvd_roundtrip :
    (∀ (O : Oracle) (b : Bytes) (w : WVDFields),
      parseWVD b = some w → w.version = 1 → w.flagsRaw < 2 →
      (w.vmpLen = none ∨ w.vmpLen = some 0) →
      w.privateKey ≠ [] →
      (∃ k, O.rsaImport w.privateKey = some k ∧ O.rsaExportDER k = w.privateKey) →
      (∃ c, O.parseClientId w.clientId = some c ∧ O.serializeClientId c = w.clientId) →
      ∃ d db w2, load O b = .ok d ∧ dumpb O d = .ok db ∧ parseWVD db = some w2
        ∧ w2.version = w.version ∧ w2.type = w.type ∧ w2.securityLevel = w.securityLevel
        ∧ w2.flagsRaw = w.flagsRaw ∧ w2.flags = w.flags
        ∧ w2.privateKey = w.privateKey ∧ w2.clientId = w.clientId)
    ∧ (∃ d db, load vmpOracle wvdVmpBlob = .ok d ∧ d.vmp.isSome = true
        ∧ dumpb vmpOracle d = .ok db ∧ db ≠ wvdVmpBlob) := by
  constructor
  · intro O b w hw hv hflt hvl hpkne hpk hcid
    obtain ⟨hflags, hvmpf⟩ := parseWVD_inv b w hw
    have hvm : w.vmp = none := hvmpf hvl
    obtain ⟨c, hc1, hc2⟩ := hcid
    obtain ⟨k, hk1, hk2⟩ := hpk
    have hload : load O b = .ok {
        type := w.type, securityLevel := w.securityLevel, flags := w.flags,
        privateKey := some k, clientId := some c, vmp := none,
        systemId := some c.tokenSystemId } := by
      simp [load, hw, mkLocalDevice, hpkne, hk1, hc1, hvm]
    exact C5_aux O b w k c hv hflt hflags hc2 hload hk2
  · have hld : load vmpOracle wvdVmpBlob = .ok {
        type := .CHROME, securityLevel := 0,
        flags := some { sendKeyControlNonce := false },
        privateKey := some [13],
        clientId := some { blob := [7], fileHashes := some { blob := [5] }, tokenSystemId := 5 },
        vmp := some { blob := [5] }, systemId := some 5 } := by decide
    have hdb : dumpb vmpOracle {
        type := .CHROME, securityLevel := 0,
        flags := some { sendKeyControlNonce := false },
        privateKey := some [13],
        clientId := some { blob := [7], fileHashes := some { blob := [5] }, tokenSystemId := 5 },
        vmp := some { blob := [5] }, systemId := some 5 }
        = .ok [87, 86, 68, 1, 1, 0, 0, 0, 1, 13, 0, 2, 9, 9, 0, 1, 5] := by decide
    exact ⟨_, _, hld, by decide, hdb, by decide⟩

/-- Witness for C5 (amended) on a concrete valid version-1 blob with a
private key and without VMP. -/
theorem C5_wvd_roundtrip_witness :
    ∃ d db w2, load testOracle wvdBlob = .ok d
      ∧ dumpb testOracle d = .ok db
      ∧ parseWVD db = some w2
      ∧ w2.version = wvdFields.version ∧ w2.type = wvdFields.type
      ∧ w2.securityLevel = wvdFields.securityLevel
      ∧ w2.flagsRaw = wvdFields.flagsRaw ∧ w2.flags = wvdFields.flags
      ∧ w2.privateKey = wvdFields.privateKey ∧ w2.clientId = wvdFields.clientId :=
  C5_wvd_roundtrip.1 testOracle wvdBlob wvdFields (by decide) rfl (by decide)
    (Or.inl rfl) (by decide) ⟨[13], rfl, rfl⟩
    ⟨{ blob := [7], fileHashes := none, tokenSystemId := 5 }, rfl, rfl⟩
